import Mathlib

/-!
Verification of the Alice CLI bootstrap and dispatch logic
(src/nucypher/cli/commands/alice.py), shallowly embedded in Lean.

Python option values are embedded as `Option` types; Python truthiness on
those values (`if federated_only and geth`, `if not self.provider_uri`) is
made explicit through the helpers below.  Side effects that matter to the
claims (starting a managed geth process, selecting a client account,
prompting for passwords, touching the configuration file, calling the
external granting service, starting a controller) are recorded in an
explicit effect trace returned alongside each operation's result, so that
"no I/O happens before the error" is provable as "the effect trace is
empty".
-/

namespace Alice

/-- Python truthiness of an optional string (`None` and `""` are falsy). -/
def optStrTruthy : Option String → Bool
  | some s => !s.isEmpty
  | none => false

/-- Python truthiness of an optional bool (`None` and `False` are falsy). -/
def optBoolTruthy : Option Bool → Bool
  | some b => b
  | none => false

/-- `nucypher.utilities.sandbox.constants.TEMPORARY_DOMAIN`: the single
temporary development domain name (an opaque external constant). -/
def TEMPORARY_DOMAIN : String := "TEMPORARY_DOMAIN"

/-- `NUCYPHER_ENVVAR_ALICE_ETH_PASSWORD`: the name of the designated
environment variable for the operator's chain-account password. -/
def NUCYPHER_ENVVAR_ALICE_ETH_PASSWORD : String := "NUCYPHER_ALICE_ETH_PASSWORD"

/-- The `eth_node` attribute: either the `NO_BLOCKCHAIN_CONNECTION` constant
or a managed geth client process obtained from `actions.get_provider_process`. -/
inductive EthNode
  | noBlockchainConnection
  | managedGeth
  deriving DecidableEq, Repr

/-- Observable side effects of the CLI layer, in program order. -/
inductive Effect
  | startProviderProcess
  | loadConfigurationFile
  | handleMissingConfigurationFile
  | selectClientAccount
  | promptNucypherPassword
  | generateToDisk
  | promptClientPassword
  | makeCliCharacter
  | emitAuthFailure
  | callGrantService
  | startRpcController
  | startHttpController (dry_run : Bool)
  deriving DecidableEq, Repr

/-- The click usage errors raised by this file:
`click.BadOptionUsage(option_name, message)` and
`click.BadArgumentUsage(message)`. -/
inductive CliError
  | badOptionUsage (option_name message : String)
  | badArgumentUsage (message : String)
  deriving DecidableEq, Repr

/-- Raw startup parameters of the `AliceConfigOptions` option group, as click
hands them to `AliceConfigOptions.__init__`.  The middleware handle is opaque
and only stored, so it is embedded as a bare tag. -/
structure RawParams where
  dev : Bool
  network : Option String
  provider_uri : Option String
  geth : Bool
  federated_only : Option Bool
  discovery_port : Option Nat
  pay_with : Option String
  registry_filepath : Option String
  middleware : Nat
  deriving DecidableEq, Repr

/-- The state of a constructed `AliceConfigOptions` object (the attributes
set at the end of `__init__`). -/
structure AliceConfigOptionsState where
  dev : Bool
  domains : Option (List String)
  provider_uri : Option String
  geth : Bool
  federated_only : Option Bool
  eth_node : EthNode
  pay_with : Option String
  discovery_port : Option Nat
  registry_filepath : Option String
  middleware : Nat
  deriving DecidableEq, Repr

/-- The provider URI reported by a managed geth process
(`eth_node.provider_uri(scheme=file)`); an opaque external value. -/
def managedProviderUri : String := "file://geth.ipc"

/-- `AliceConfigOptions.__init__`: rejects `--federated-only` together with
`--geth` before anything else; otherwise optionally starts the managed
Ethereum client (an I/O effect) and stores the attributes.
`self.domains = set containing network if network else None`. -/
def aliceConfigOptionsInit (p : RawParams) :
    Except CliError AliceConfigOptionsState × List Effect :=
  if optBoolTruthy p.federated_only && p.geth then
    (.error (.badOptionUsage "--geth"
      "--federated-only cannot be used with the --geth flag"), [])
  else
    ((.ok
      { dev := p.dev
        domains := if optStrTruthy p.network then some [p.network.getD ""] else none
        provider_uri := if p.geth then some managedProviderUri else p.provider_uri
        geth := p.geth
        federated_only := p.federated_only
        eth_node := if p.geth then .managedGeth else .noBlockchainConnection
        pay_with := p.pay_with
        discovery_port := p.discovery_port
        registry_filepath := p.registry_filepath
        middleware := p.middleware }),
     if p.geth then [Effect.startProviderProcess] else [])

/-- Modelled from the spec: the character configuration value
(`AliceConfiguration` of `nucypher.config.characters`, which is not under
src/).  Only the fields this CLI layer sets or reads are embedded. -/
structure AliceConfiguration where
  dev_mode : Bool
  domains : List String
  provider_uri : Option String
  federated_only : Bool
  checksum_address : Option String
  deriving DecidableEq, Repr

/-- Result of `AliceConfigOptions.create_config`: either a configuration
value, or the recoverable outcome of
`actions.handle_missing_configuration_file` (not under src/), which offers
the interactive creation flow instead of failing hard. -/
inductive CreateConfigResult
  | loadedConfig (c : AliceConfiguration)
  | missingFileHandled
  deriving DecidableEq, Repr

/-- `AliceConfigOptions.create_config`.  `fileOnDisk` models the persistence
collaborator: `some c` when the configuration file parses to `c`, `none` when
`AliceConfiguration.from_configuration_file` raises `FileNotFoundError`
(both from code not under src/; modelled from the spec's
`load(path) -> Configuration | NotFound`).  The CLI overrides passed to
`from_configuration_file` beyond `dev_mode=False` are part of that external
collaborator and are not needed by any claim here. -/
def create_config (o : AliceConfigOptionsState)
    (fileOnDisk : Option AliceConfiguration) :
    Except CliError CreateConfigResult × List Effect :=
  if o.dev then
    if o.federated_only = some false then
      (.error (.badOptionUsage "--federated-only"
        "--federated-only cannot be explicitly set to False when --dev is set"), [])
    else
      (.ok (.loadedConfig
        { dev_mode := true
          domains := [TEMPORARY_DOMAIN]
          provider_uri := o.provider_uri
          federated_only := true
          checksum_address := none }), [])
  else
    match fileOnDisk with
    | some c =>
        (.ok (.loadedConfig { c with dev_mode := false }),
         [Effect.loadConfigurationFile])
    | none =>
        (.ok .missingFileHandled,
         [Effect.loadConfigurationFile, Effect.handleMissingConfigurationFile])

/-- The account returned by the interactive `select_client_account`
collaborator (external, opaque). -/
def selectedAccount : String := "0xSELECTED"

/-- The per-command arguments of `init` forwarded to `generate_config`. -/
structure GenerateArgs where
  poa : Bool
  light : Bool
  m : Option Nat
  n : Option Nat
  duration_periods : Option Nat
  rate : Option Nat
  deriving DecidableEq, Repr

/-- The argument record handed to `AliceConfiguration.generate` on success. -/
structure GeneratedAlice where
  checksum_address : Option String
  domains : Option (List String)
  federated_only : Option Bool
  provider_uri : Option String
  registry_filepath : Option String
  poa : Bool
  light : Bool
  m : Option Nat
  n : Option Nat
  duration_periods : Option Nat
  rate : Option Nat
  deriving DecidableEq, Repr

/-- `AliceConfigOptions.generate_config`: refuses dev mode, then requires a
provider URI for a decentralized (non-federated) alice, then possibly selects
a client account interactively, prompts for the nucypher password, and
persists a generated configuration. -/
def generate_config (o : AliceConfigOptionsState) (g : GenerateArgs) :
    Except CliError GeneratedAlice × List Effect :=
  if o.dev then
    (.error (.badArgumentUsage "Cannot create a persistent development character"), [])
  else if !optStrTruthy o.provider_uri && !optBoolTruthy o.federated_only then
    (.error (.badOptionUsage "--provider"
      "--provider is required to create a new decentralized alice."), [])
  else
    let needSelect := !optStrTruthy o.pay_with && !optBoolTruthy o.federated_only
    let pay_with := if needSelect then some selectedAccount else o.pay_with
    ((.ok
      { checksum_address := pay_with
        domains := o.domains
        federated_only := o.federated_only
        provider_uri := o.provider_uri
        registry_filepath := o.registry_filepath
        poa := g.poa
        light := g.light
        m := g.m
        n := g.n
        duration_periods := g.duration_periods
        rate := g.rate }),
     (if needSelect then [Effect.selectClientAccount] else []) ++
       [Effect.promptNucypherPassword, Effect.generateToDisk])

/-- The `client_password` local of `create_character`: Python `None`, the
`NO_PASSWORD` sentinel from constant_sorrow, or an actual password string. -/
inductive ClientPassword
  | pyNone
  | noPasswordSentinel
  | supplied (s : String)
  deriving DecidableEq, Repr

/-- The external inputs of `AliceCharacterOptions.create_character`:
the designated environment variable's value (or absence), whether the
keyring decryption inside `actions.make_cli_character` succeeds with the
supplied credential (modelled from the spec: the gate attempts exactly one
decryption and signals `AuthenticationFailed` on mismatch; the keyring is
not under src/), and what the interactive `get_client_password` prompt
returns. -/
structure CharacterEnv where
  alice_eth_password_env : Option String
  keyring_auth_ok : Bool
  prompted_password : String
  deriving DecidableEq, Repr

/-- Result of `create_character`: either the created character (carrying the
`client_password` value that reached `actions.make_cli_character`), or a
process exit via `click.get_current_context().exit(code)` after
`NucypherKeyring.AuthenticationFailed` is caught. -/
inductive CreateCharacterResult
  | alice (config : AliceConfiguration) (client_password : ClientPassword)
  | exited (code : Nat)
  deriving DecidableEq, Repr

/-- The password branch of `create_character` (lines 196-205).  Note: when
`--json-ipc` is set and the environment variable is absent, the code
constructs `click.BadOptionUsage` but does not raise it, so execution
continues with the `NO_PASSWORD` sentinel and no further effect. -/
def clientPasswordStep (config : AliceConfiguration) (hw_wallet json_ipc : Bool)
    (env : CharacterEnv) : ClientPassword × List Effect :=
  if !config.federated_only && !hw_wallet && !config.dev_mode then
    if json_ipc then
      match env.alice_eth_password_env with
      | some s => (.supplied s, [])
      | none => (.noPasswordSentinel, [])
    else (.supplied env.prompted_password, [Effect.promptClientPassword])
  else (.pyNone, [])

/-- `AliceCharacterOptions.create_character` on an already-created
configuration.  Mirrors lines 192-220 of alice.py: the password branch, then
`actions.make_cli_character` with `unlock_keyring = not config.dev_mode`
(so a keyring mismatch can only arise outside dev mode); a
`NucypherKeyring.AuthenticationFailed` raised there is caught, echoed, and
turned into `click.get_current_context().exit(1)`. -/
def create_character (config : AliceConfiguration) (hw_wallet json_ipc : Bool)
    (env : CharacterEnv) : CreateCharacterResult × List Effect :=
  let pwPair := clientPasswordStep config hw_wallet json_ipc env
  let unlock_ok := config.dev_mode || env.keyring_auth_ok
  if unlock_ok then
    (.alice config pwPair.1, pwPair.2 ++ [Effect.makeCliCharacter])
  else
    (.exited 1, pwPair.2 ++ [Effect.makeCliCharacter, Effect.emitAuthFailure])

/-- Outcome of the `run` command after character creation. -/
inductive RunOutcome
  | exitedAuth (code : Nat)
  | rpcStarted
  | httpStarted (dry_run : Bool)
  deriving DecidableEq, Repr

/-- The `run` command (lines 300-322): create the character, then start
exactly one controller — the RPC controller when `--json-ipc` is set (its
`start()` takes no dry-run argument), otherwise the HTTP web controller with
`dry_run` forwarded. -/
def runCommand (config : AliceConfiguration) (hw_wallet : Bool)
    (env : CharacterEnv) (json_ipc dry_run : Bool) : RunOutcome × List Effect :=
  match create_character config hw_wallet json_ipc env with
  | (.exited n, effs) => (.exitedAuth n, effs)
  | (.alice _ _, effs) =>
      if json_ipc then (.rpcStarted, effs ++ [Effect.startRpcController])
      else (.httpStarted dry_run, effs ++ [Effect.startHttpController dry_run])

/-- The control-plane listener states of the spec's state machine. -/
inductive ListenerState
  | created
  | bound
  | serving
  | stopped
  deriving DecidableEq, Repr

/-- Modelled from the spec: the HTTP web controller's
`start(http_port, dry_run)` (class lives outside src/) — with
`dry_run = true` it binds, self-validates and stops without entering
Serving; otherwise it serves. -/
def httpControllerStates (dry_run : Bool) : List ListenerState :=
  if dry_run then [.created, .bound, .stopped]
  else [.created, .bound, .serving]

/-- Modelled from the spec: the RPC controller's `start()` (class lives
outside src/) has no dry-run parameter and always proceeds to serve on the
IPC transport. -/
def rpcControllerStates : List ListenerState := [.created, .bound, .serving]

/-- Listener states traversed by a `run` outcome. -/
def listenerStates : RunOutcome → List ListenerState
  | .exitedAuth _ => []
  | .rpcStarted => rpcControllerStates
  | .httpStarted d => httpControllerStates d

/-- Modelled from the spec: the process exit code once `run` returns —
`exit(1)` on authentication failure, exit 0 when a dry-run HTTP start
returns normally, no exit while a controller is serving. -/
def runExitCode : RunOutcome → Option Nat
  | .exitedAuth n => some n
  | .rpcStarted => none
  | .httpStarted true => some 0
  | .httpStarted false => none

/-- The CLI parameters of the `grant` command that shape the request. -/
structure GrantCliParams where
  bob_encrypting_key : String
  bob_verifying_key : String
  label : String
  m : Option Nat
  n : Option Nat
  expiration : Option String
  value : Option Nat
  rate : Option Nat
  deriving DecidableEq, Repr

/-- The `grant_request` dict sent to `ALICE.controller.grant`.  The outer
`Option` on `value`/`rate` records whether the key is present in the dict at
all (the CLI adds the two keys only for a non-federated alice); the inner
`Option` is the possibly-`None` click value. -/
structure GrantRequest where
  bob_encrypting_key : String
  bob_verifying_key : String
  label : String
  m : Option Nat
  n : Option Nat
  expiration : Option String
  value : Option (Option Nat)
  rate : Option (Option Nat)
  deriving DecidableEq, Repr

/-- The `grant` command body after character creation (lines 391-402):
build the request dict, add `value`/`rate` only when
`not ALICE.federated_only`, and always call the controller's grant. -/
def grantCommand (alice_federated_only : Bool) (p : GrantCliParams) :
    Except CliError GrantRequest × List Effect :=
  let base : GrantRequest :=
    { bob_encrypting_key := p.bob_encrypting_key
      bob_verifying_key := p.bob_verifying_key
      label := p.label
      m := p.m
      n := p.n
      expiration := p.expiration
      value := none
      rate := none }
  let req :=
    if !alice_federated_only then
      { base with value := some p.value, rate := some p.rate }
    else base
  (.ok req, [Effect.callGrantService])

/-- Modelled from the spec: the RequestDispatcher rule that a federated
grant must not carry payment fields — fires only when a `value` or `rate`
key is present in the request it receives. -/
def dispatcherPaymentFieldViolation (federated : Bool) (req : GrantRequest) : Bool :=
  federated && (req.value.isSome || req.rate.isSome)

/-- `Except.isOk` as a plain boolean for decidable counterexamples. -/
def exceptIsOk : Except CliError GrantRequest → Bool
  | .ok _ => true
  | .error _ => false

/-- The option-group composition click performs for commands that create a
configuration: `AliceConfigOptions.__init__` on the raw parameters, then
`create_config` on the constructed object, with effects in program order. -/
def cliCreateConfig (p : RawParams) (fileOnDisk : Option AliceConfiguration) :
    Except CliError CreateConfigResult × List Effect :=
  match aliceConfigOptionsInit p with
  | (.error e, effs) => (.error e, effs)
  | (.ok o, effs) =>
      ((create_config o fileOnDisk).1, effs ++ (create_config o fileOnDisk).2)

/-! ## Theorems -/

/-- Claim C5: when federated-only operation and a managed geth client are
both requested, `AliceConfigOptions.__init__` fails with the mutual-exclusion
usage error as its very first act: the result is the `--geth` error and the
effect trace is empty, so the managed client process is never started and no
other validation rule (which all live later, in `create_config` /
`generate_config`) is ever evaluated, whatever the remaining parameters
are. -/
theorem init_federated_geth_incompatible (p : RawParams)
    (hf : p.federated_only = some true) (hg : p.geth = true) :
    aliceConfigOptionsInit p =
      (.error (.badOptionUsage "--geth"
        "--federated-only cannot be used with the --geth flag"), []) := by
  simp [aliceConfigOptionsInit, optBoolTruthy, hf, hg]

/-- Witness for C5 at a concrete parameter set. -/
theorem init_federated_geth_incompatible_witness :
    aliceConfigOptionsInit
      { dev := false, network := some "mainnet", provider_uri := some "http://geth:8545",
        geth := true, federated_only := some true, discovery_port := some 9151,
        pay_with := none, registry_filepath := none, middleware := 0 } =
      (.error (.badOptionUsage "--geth"
        "--federated-only cannot be used with the --geth flag"), []) :=
  init_federated_geth_incompatible _ rfl rfl

/-- Claim C3: in dev (Ephemeral) mode, `create_config` fails with the
`--federated-only` usage error exactly when `federated_only` is explicitly
`False`, with an empty effect trace (before any I/O); when `federated_only`
is unset (`None`) or `True`, it succeeds with the ephemeral configuration and
no such error. -/
theorem dev_config_federation (o : AliceConfigOptionsState)
    (f : Option AliceConfiguration) (hdev : o.dev = true) :
    (o.federated_only = some false →
      create_config o f =
        (.error (.badOptionUsage "--federated-only"
          "--federated-only cannot be explicitly set to False when --dev is set"), [])) ∧
    (o.federated_only ≠ some false →
      create_config o f =
        (.ok (.loadedConfig
          { dev_mode := true
            domains := [TEMPORARY_DOMAIN]
            provider_uri := o.provider_uri
            federated_only := true
            checksum_address := none }), [])) := by
  refine ⟨fun h => ?_, fun h => ?_⟩ <;> simp [create_config, hdev, h]

/-- Witness for C3: both branches at concrete option states. -/
theorem dev_config_federation_witness :
    create_config
      { dev := true, domains := none, provider_uri := none, geth := false,
        federated_only := some false, eth_node := .noBlockchainConnection,
        pay_with := none, discovery_port := none, registry_filepath := none,
        middleware := 0 } none =
      (.error (.badOptionUsage "--federated-only"
        "--federated-only cannot be explicitly set to False when --dev is set"), []) ∧
    create_config
      { dev := true, domains := none, provider_uri := none, geth := false,
        federated_only := none, eth_node := .noBlockchainConnection,
        pay_with := none, discovery_port := none, registry_filepath := none,
        middleware := 0 } none =
      (.ok (.loadedConfig
        { dev_mode := true, domains := [TEMPORARY_DOMAIN], provider_uri := none,
          federated_only := true, checksum_address := none }), []) :=
  ⟨(dev_config_federation _ none rfl).1 rfl,
   (dev_config_federation _ none rfl).2 (by simp)⟩

/-- Claim C6: in persistent (non-dev) mode, when the configuration file is
missing, `create_config` does not fail hard: it returns the recoverable
outcome of `actions.handle_missing_configuration_file`, which offers the
interactive creation flow, and the effect trace records exactly the load
attempt followed by the missing-file handler. -/
theorem persistent_missing_file_recoverable (o : AliceConfigOptionsState)
    (hdev : o.dev = false) :
    create_config o none =
      (.ok .missingFileHandled,
       [Effect.loadConfigurationFile, Effect.handleMissingConfigurationFile]) := by
  simp [create_config, hdev]

/-- Witness for C6 at a concrete option state. -/
theorem persistent_missing_file_recoverable_witness :
    create_config
      { dev := false, domains := some ["mainnet"], provider_uri := some "http://geth:8545",
        geth := false, federated_only := none, eth_node := .noBlockchainConnection,
        pay_with := none, discovery_port := none, registry_filepath := none,
        middleware := 0 } none =
      (.ok .missingFileHandled,
       [Effect.loadConfigurationFile, Effect.handleMissingConfigurationFile]) :=
  persistent_missing_file_recoverable _ rfl

/-- Claim C7: generating a new persistent configuration for a decentralized
(non-federated) alice with no provider URI fails with the `--provider` usage
error and an empty effect trace: no client-account selection, no password
prompt, and no persistence happen. -/
theorem generate_requires_provider (o : AliceConfigOptionsState)
    (g : GenerateArgs) (hdev : o.dev = false)
    (hp : optStrTruthy o.provider_uri = false)
    (hf : optBoolTruthy o.federated_only = false) :
    generate_config o g =
      (.error (.badOptionUsage "--provider"
        "--provider is required to create a new decentralized alice."), []) := by
  simp [generate_config, hdev, hp, hf]

/-- Witness for C7 at a concrete option state. -/
theorem generate_requires_provider_witness :
    generate_config
      { dev := false, domains := some ["mainnet"], provider_uri := none,
        geth := false, federated_only := none, eth_node := .noBlockchainConnection,
        pay_with := none, discovery_port := none, registry_filepath := none,
        middleware := 0 }
      { poa := false, light := false, m := some 2, n := some 3,
        duration_periods := none, rate := none } =
      (.error (.badOptionUsage "--provider"
        "--provider is required to create a new decentralized alice."), []) :=
  generate_requires_provider _ _ rfl rfl rfl

/-- Claim C9: `generate_config` invoked while dev mode is requested fails
with "Cannot create a persistent development character" and an empty effect
trace, so Ephemeral mode never persists a configuration to disk. -/
theorem generate_rejects_dev (o : AliceConfigOptionsState) (g : GenerateArgs)
    (hdev : o.dev = true) :
    generate_config o g =
      (.error (.badArgumentUsage "Cannot create a persistent development character"),
       []) := by
  simp [generate_config, hdev]

/-- Claim C10: any configuration successfully created in dev (Ephemeral)
mode has `federated_only = true` and its domain set equal to the single
temporary development domain, for every raw parameter set — in particular
whatever `network`, `pay_with`, `discovery_port` or `registry_filepath` were
supplied, those values do not reach the dev configuration. -/
theorem dev_config_contents (p : RawParams) (f : Option AliceConfiguration)
    (c : AliceConfiguration) (hdev : p.dev = true)
    (hcfg : (cliCreateConfig p f).1 = .ok (.loadedConfig c)) :
    c.federated_only = true ∧ c.domains = [TEMPORARY_DOMAIN] := by
  unfold cliCreateConfig aliceConfigOptionsInit at hcfg
  by_cases hG : (optBoolTruthy p.federated_only && p.geth) = true
  · simp [hG] at hcfg
  · by_cases hF : p.federated_only = some false
    · simp [hG, create_config, hdev, hF, optBoolTruthy] at hcfg
    · simp [hG, create_config, hdev, hF] at hcfg
      simp [← hcfg]

/-- Witness for C10: a dev creation with a network, a payment account, a
discovery port and a registry filepath all supplied; the result is federated
and on the temporary domain anyway. -/
theorem dev_config_contents_witness :
    (cliCreateConfig
      { dev := true, network := some "mainnet", provider_uri := some "http://geth:8545",
        geth := false, federated_only := some true, discovery_port := some 9151,
        pay_with := some "0xPAYER", registry_filepath := some "registry.json",
        middleware := 7 } none).1 =
      .ok (.loadedConfig
        { dev_mode := true, domains := [TEMPORARY_DOMAIN],
          provider_uri := some "http://geth:8545", federated_only := true,
          checksum_address := none }) ∧
    (true = true ∧ [TEMPORARY_DOMAIN] = [TEMPORARY_DOMAIN]) :=
  ⟨rfl,
   dev_config_contents
     { dev := true, network := some "mainnet", provider_uri := some "http://geth:8545",
       geth := false, federated_only := some true, discovery_port := some 9151,
       pay_with := some "0xPAYER", registry_filepath := some "registry.json",
       middleware := 7 } none
     { dev_mode := true, domains := [TEMPORARY_DOMAIN],
       provider_uri := some "http://geth:8545", federated_only := true,
       checksum_address := none } rfl rfl⟩

/-- Witness for C9 at a concrete option state. -/
theorem generate_rejects_dev_witness :
    generate_config
      { dev := true, domains := none, provider_uri := some "http://geth:8545",
        geth := false, federated_only := none, eth_node := .noBlockchainConnection,
        pay_with := some "0xPAYER", discovery_port := none, registry_filepath := none,
        middleware := 0 }
      { poa := false, light := false, m := none, n := none,
        duration_periods := none, rate := none } =
      (.error (.badArgumentUsage "Cannot create a persistent development character"),
       []) :=
  generate_rejects_dev _ _ rfl

/-- Helper: the password step emits at most an interactive prompt — its
effect trace is either empty or the single interactive prompt effect. -/
theorem clientPasswordStep_effects (config : AliceConfiguration)
    (hw json_ipc : Bool) (env : CharacterEnv) :
    (clientPasswordStep config hw json_ipc env).2 = [] ∨
    (clientPasswordStep config hw json_ipc env).2 = [Effect.promptClientPassword] := by
  obtain ⟨e, k, pp⟩ := env
  unfold clientPasswordStep
  by_cases h : (!config.federated_only && !hw && !config.dev_mode) = true <;>
    simp [h]
  cases json_ipc
  · simp
  · cases e <;> simp

/-- Claim C4: with an incorrect credential against a persistent (non-dev)
configuration, the `run` command always ends in the authentication-failure
exit: the outcome is `exit(1)` (a distinguished non-zero status), the
failure is reported, exactly one unlock attempt is made (no retry), no
controller is ever started on either transport, and the listener never
reaches the Serving state. -/
theorem auth_failure_exits (config : AliceConfiguration) (hw : Bool)
    (env : CharacterEnv) (json_ipc dry_run : Bool)
    (hdev : config.dev_mode = false) (hauth : env.keyring_auth_ok = false) :
    (runCommand config hw env json_ipc dry_run).1 = .exitedAuth 1 ∧
    runExitCode (runCommand config hw env json_ipc dry_run).1 = some 1 ∧
    Effect.emitAuthFailure ∈ (runCommand config hw env json_ipc dry_run).2 ∧
    ((runCommand config hw env json_ipc dry_run).2).count Effect.makeCliCharacter = 1 ∧
    Effect.startRpcController ∉ (runCommand config hw env json_ipc dry_run).2 ∧
    (∀ d : Bool, Effect.startHttpController d ∉ (runCommand config hw env json_ipc dry_run).2) ∧
    ListenerState.serving ∉ listenerStates (runCommand config hw env json_ipc dry_run).1 := by
  have hcc : create_character config hw json_ipc env =
      (.exited 1, (clientPasswordStep config hw json_ipc env).2 ++
        [Effect.makeCliCharacter, Effect.emitAuthFailure]) := by
    unfold create_character
    simp [hdev, hauth]
  rcases clientPasswordStep_effects config hw json_ipc env with hp | hp <;>
    simp [runCommand, hcc, hp, runExitCode, listenerStates]

/-- Witness for C4: a concrete persistent chain-backed configuration with a
failing keyring decryption, on the HTTP transport. -/
theorem auth_failure_exits_witness :
    (runCommand
      { dev_mode := false, domains := ["mainnet"],
        provider_uri := some "http://geth:8545", federated_only := false,
        checksum_address := some "0xME" }
      false
      { alice_eth_password_env := some "wrong-password", keyring_auth_ok := false,
        prompted_password := "wrong-password" }
      false false).1 = .exitedAuth 1 ∧
    runExitCode (runCommand
      { dev_mode := false, domains := ["mainnet"],
        provider_uri := some "http://geth:8545", federated_only := false,
        checksum_address := some "0xME" }
      false
      { alice_eth_password_env := some "wrong-password", keyring_auth_ok := false,
        prompted_password := "wrong-password" }
      false false).1 = some 1 ∧
    Effect.emitAuthFailure ∈ (runCommand
      { dev_mode := false, domains := ["mainnet"],
        provider_uri := some "http://geth:8545", federated_only := false,
        checksum_address := some "0xME" }
      false
      { alice_eth_password_env := some "wrong-password", keyring_auth_ok := false,
        prompted_password := "wrong-password" }
      false false).2 ∧
    ((runCommand
      { dev_mode := false, domains := ["mainnet"],
        provider_uri := some "http://geth:8545", federated_only := false,
        checksum_address := some "0xME" }
      false
      { alice_eth_password_env := some "wrong-password", keyring_auth_ok := false,
        prompted_password := "wrong-password" }
      false false).2).count Effect.makeCliCharacter = 1 ∧
    Effect.startRpcController ∉ (runCommand
      { dev_mode := false, domains := ["mainnet"],
        provider_uri := some "http://geth:8545", federated_only := false,
        checksum_address := some "0xME" }
      false
      { alice_eth_password_env := some "wrong-password", keyring_auth_ok := false,
        prompted_password := "wrong-password" }
      false false).2 ∧
    (∀ d : Bool, Effect.startHttpController d ∉ (runCommand
      { dev_mode := false, domains := ["mainnet"],
        provider_uri := some "http://geth:8545", federated_only := false,
        checksum_address := some "0xME" }
      false
      { alice_eth_password_env := some "wrong-password", keyring_auth_ok := false,
        prompted_password := "wrong-password" }
      false false).2) ∧
    ListenerState.serving ∉ listenerStates (runCommand
      { dev_mode := false, domains := ["mainnet"],
        provider_uri := some "http://geth:8545", federated_only := false,
        checksum_address := some "0xME" }
      false
      { alice_eth_password_env := some "wrong-password", keyring_auth_ok := false,
        prompted_password := "wrong-password" }
      false false).1 :=
  auth_failure_exits
    { dev_mode := false, domains := ["mainnet"],
      provider_uri := some "http://geth:8545", federated_only := false,
      checksum_address := some "0xME" }
    false
    { alice_eth_password_env := some "wrong-password", keyring_auth_ok := false,
      prompted_password := "wrong-password" }
    false false rfl rfl

/-- Claim C2 (exhibit of the code slip): chain-backed persistent character
creation in json-ipc mode with the designated environment variable absent
does NOT fail — the `click.BadOptionUsage` is constructed but never raised,
so `create_character` proceeds into `make_cli_character` carrying the
`NO_PASSWORD` sentinel instead of stopping with a configuration error. -/
theorem json_ipc_missing_envvar_proceeds :
    create_character
      { dev_mode := false, domains := ["mainnet"],
        provider_uri := some "http://geth:8545", federated_only := false,
        checksum_address := some "0xME" }
      false true
      { alice_eth_password_env := none, keyring_auth_ok := true,
        prompted_password := "unused" } =
      (.alice
        { dev_mode := false, domains := ["mainnet"],
          provider_uri := some "http://geth:8545", federated_only := false,
          checksum_address := some "0xME" }
        .noPasswordSentinel,
       [Effect.makeCliCharacter]) := rfl

/-- Counterexample for C1: a grant on a federated alice with `--value` and
`--rate` supplied does not fail and does call the granting service — the
request is sent with the payment keys simply never added. -/
theorem grant_federated_payment_counterexample :
    exceptIsOk (grantCommand true
      { bob_encrypting_key := "02bobenc", bob_verifying_key := "03bobver",
        label := "mylabel", m := some 2, n := some 3,
        expiration := some "2026-01-01T00:00:00",
        value := some 100, rate := some 5 }).1 = true ∧
    (grantCommand true
      { bob_encrypting_key := "02bobenc", bob_verifying_key := "03bobver",
        label := "mylabel", m := some 2, n := some 3,
        expiration := some "2026-01-01T00:00:00",
        value := some 100, rate := some 5 }).1 =
      .ok { bob_encrypting_key := "02bobenc", bob_verifying_key := "03bobver",
            label := "mylabel", m := some 2, n := some 3,
            expiration := some "2026-01-01T00:00:00",
            value := none, rate := none } ∧
    Effect.callGrantService ∈ (grantCommand true
      { bob_encrypting_key := "02bobenc", bob_verifying_key := "03bobver",
        label := "mylabel", m := some 2, n := some 3,
        expiration := some "2026-01-01T00:00:00",
        value := some 100, rate := some 5 }).2 := by
  refine ⟨rfl, rfl, ?_⟩
  simp [grantCommand]

/-- Claim C1 (amended): for every grant on a federated alice, whatever
payment fields were supplied on the command line, the dispatch succeeds, the
`value` and `rate` keys are silently omitted from the request, the external
granting service is called, and consequently the spec's dispatcher rule
against payment fields on a federated grant can never fire on the request
actually sent. -/
theorem grant_federated_silently_drops (p : GrantCliParams) :
    ∃ req : GrantRequest,
      grantCommand true p = (.ok req, [Effect.callGrantService]) ∧
      req.value = none ∧ req.rate = none ∧
      dispatcherPaymentFieldViolation true req = false := by
  refine ⟨_, rfl, rfl, rfl, rfl⟩

/-- Counterexample for C8: on the RPC-over-IPC transport (`--json-ipc`)
with `dry_run = true` and a valid, unlockable configuration, the RPC
controller is started all the same — the listener reaches Serving and the
process does not exit 0, because the `run` command never forwards `dry_run`
to the RPC controller. -/
theorem rpc_dry_run_counterexample :
    (runCommand
      { dev_mode := false, domains := ["mainnet"],
        provider_uri := some "http://geth:8545", federated_only := false,
        checksum_address := some "0xME" }
      false
      { alice_eth_password_env := some "pw", keyring_auth_ok := true,
        prompted_password := "pw" }
      true true).1 = .rpcStarted ∧
    ListenerState.serving ∈ listenerStates (runCommand
      { dev_mode := false, domains := ["mainnet"],
        provider_uri := some "http://geth:8545", federated_only := false,
        checksum_address := some "0xME" }
      false
      { alice_eth_password_env := some "pw", keyring_auth_ok := true,
        prompted_password := "pw" }
      true true).1 ∧
    runExitCode (runCommand
      { dev_mode := false, domains := ["mainnet"],
        provider_uri := some "http://geth:8545", federated_only := false,
        checksum_address := some "0xME" }
      false
      { alice_eth_password_env := some "pw", keyring_auth_ok := true,
        prompted_password := "pw" }
      true true).1 ≠ some 0 := by
  refine ⟨rfl, ?_, ?_⟩ <;> decide

/-- Claim C8 (amended): for every configuration that unlocks, dry-run is
honored on the HTTP transport only — there `start(dry_run = true)` walks
Created -> Bound -> Stopped, never enters Serving, and the process exits 0 —
while on the RPC-over-IPC transport the `dry_run` flag is ignored and the
controller proceeds to Serving regardless of its value. -/
theorem dry_run_http_only (config : AliceConfiguration) (hw : Bool)
    (env : CharacterEnv)
    (hok : (config.dev_mode || env.keyring_auth_ok) = true) :
    (listenerStates (runCommand config hw env false true).1 =
        [ListenerState.created, ListenerState.bound, ListenerState.stopped] ∧
      ListenerState.serving ∉ listenerStates (runCommand config hw env false true).1 ∧
      runExitCode (runCommand config hw env false true).1 = some 0) ∧
    (∀ d : Bool, (runCommand config hw env true d).1 = .rpcStarted ∧
      ListenerState.serving ∈ listenerStates (runCommand config hw env true d).1) := by
  have hcc : ∀ j : Bool, create_character config hw j env =
      (.alice config (clientPasswordStep config hw j env).1,
       (clientPasswordStep config hw j env).2 ++ [Effect.makeCliCharacter]) := by
    intro j
    unfold create_character
    simp [hok]
  refine ⟨?_, fun d => ?_⟩ <;>
    simp [runCommand, hcc, listenerStates, httpControllerStates,
      rpcControllerStates, runExitCode]

/-- Witness for C8 (amended) at a concrete unlockable configuration. -/
theorem dry_run_http_only_witness :
    (listenerStates (runCommand
        { dev_mode := false, domains := ["mainnet"],
          provider_uri := some "http://geth:8545", federated_only := false,
          checksum_address := some "0xME" }
        false
        { alice_eth_password_env := some "pw", keyring_auth_ok := true,
          prompted_password := "pw" }
        false true).1 =
        [ListenerState.created, ListenerState.bound, ListenerState.stopped] ∧
      ListenerState.serving ∉ listenerStates (runCommand
        { dev_mode := false, domains := ["mainnet"],
          provider_uri := some "http://geth:8545", federated_only := false,
          checksum_address := some "0xME" }
        false
        { alice_eth_password_env := some "pw", keyring_auth_ok := true,
          prompted_password := "pw" }
        false true).1 ∧
      runExitCode (runCommand
        { dev_mode := false, domains := ["mainnet"],
          provider_uri := some "http://geth:8545", federated_only := false,
          checksum_address := some "0xME" }
        false
        { alice_eth_password_env := some "pw", keyring_auth_ok := true,
          prompted_password := "pw" }
        false true).1 = some 0) ∧
    (∀ d : Bool, (runCommand
        { dev_mode := false, domains := ["mainnet"],
          provider_uri := some "http://geth:8545", federated_only := false,
          checksum_address := some "0xME" }
        false
        { alice_eth_password_env := some "pw", keyring_auth_ok := true,
          prompted_password := "pw" }
        true d).1 = .rpcStarted ∧
      ListenerState.serving ∈ listenerStates (runCommand
        { dev_mode := false, domains := ["mainnet"],
          provider_uri := some "http://geth:8545", federated_only := false,
          checksum_address := some "0xME" }
        false
        { alice_eth_password_env := some "pw", keyring_auth_ok := true,
          prompted_password := "pw" }
        true d).1) :=
  dry_run_http_only
    { dev_mode := false, domains := ["mainnet"],
      provider_uri := some "http://geth:8545", federated_only := false,
      checksum_address := some "0xME" }
    false
    { alice_eth_password_env := some "pw", keyring_auth_ok := true,
      prompted_password := "pw" }
    rfl

end Alice
